import Mathlib

/-!
Verification development for the ReTrigger converter module
(`retrigger/converters.py`): a shallow embedding of the response-spec
parser (`MultiResponse.convert`), the `Trigger` entity (construction,
serialization, deserialization) and the `ValidRegex` converter, together
with theorems settling the specification claims about them.

Conventions of the embedding:
- Python's dynamically-typed JSON-like values are modelled by `JVal`;
  Python dicts used as keyword bags / persisted documents are modelled by
  `Doc`, an association list with Python `dict` semantics (`pop`, `get`,
  indexing raising `KeyError`, item assignment).
- Exceptions are modelled with `Except`: `BadArgument` and the Python
  builtin exceptions become constructors of explicit error types.
- The discord/redbot framework is an external collaborator: the pieces of
  context the code reads (`ctx.channel.permissions_for(ctx.me)`,
  `ctx.guild.owner_id`, role/emoji resolution, the yes/no reaction
  prompt) are fields of a `Ctx` record.  Role resolution
  (`RoleConverter().convert`) and emoji resolution (`ValidEmoji`) are
  functions returning `Option`, `none` standing for `BadArgument`.
- The regex library (`re`/`regex`) is external as well: a compile
  function `String → Option Matcher` is passed explicitly, `none`
  standing for a compilation exception; a compiled pattern object is its
  matching behaviour (`Matcher`) together with the stored pattern text.
-/

/-- Dynamically-typed value, modelling the Python values that flow through
the trigger documents (None, bool, int, str, list, dict). -/
inductive JVal where
  | jnull
  | jbool (b : Bool)
  | jint (n : Int)
  | jstr (s : String)
  | jlist (xs : List JVal)
  | jdict (xs : List (String × JVal))

/-- Python truthiness (`bool(v)`), as used by `not ignore_edits`. -/
def JVal.truthy : JVal → Bool
  | .jnull => false
  | .jbool b => b
  | .jint n => !(n == 0)
  | .jstr s => !(s == "")
  | .jlist xs => !xs.isEmpty
  | .jdict xs => !xs.isEmpty

/-- Python `isinstance(v, str)`. -/
def jval_isStr : JVal → Bool
  | .jstr _ => true
  | _ => false

/-- Python `isinstance(v, bool)`. -/
def jval_isBool : JVal → Bool
  | .jbool _ => true
  | _ => false

/-- Python `v is None`. -/
def jval_isNull : JVal → Bool
  | .jnull => true
  | _ => false

/-- Errors raised by the Python runtime or by the converters:
`KeyError`, `TypeError`, a regex compilation exception, `BadArgument`. -/
inductive PyErr where
  | keyError (k : String)
  | typeError (msg : String)
  | regexError (pattern : String)
  | badArgument (msg : String)
  deriving Repr, DecidableEq

/-- Python `s in container` for a string left operand: list membership by
equality, substring test for strings, key lookup for dicts. -/
def py_str_in (s : String) (container : JVal) : Except PyErr Bool :=
  match container with
  | .jlist xs =>
    .ok (xs.any (fun e => match e with | .jstr u => u == s | _ => false))
  | .jstr big => .ok (decide (s.data <:+: big.data))
  | .jdict xs => .ok (xs.any (fun kv => kv.1 == s))
  | _ => .error (.typeError "argument is not iterable")

/-- Python `t in xs` for a list of string literals `xs`: true exactly when
`t` is a string belonging to the list. -/
def py_in_str_list (t : JVal) (xs : List String) : Bool :=
  match t with
  | .jstr u => xs.contains u
  | _ => false

/-- Python iteration over a value (`for t in v`): lists yield elements,
strings yield characters, dicts yield keys, the rest raise `TypeError`. -/
def jval_iter : JVal → Except PyErr (List JVal)
  | .jlist xs => .ok xs
  | .jstr s => .ok (s.data.map (fun c => JVal.jstr (String.mk [c])))
  | .jdict xs => .ok (xs.map (fun kv => JVal.jstr kv.1))
  | _ => .error (.typeError "object is not iterable")

/-- A Python `dict` with string keys, as an association list (keys are
unique in every document the code builds or receives). -/
abbrev Doc := List (String × JVal)

/-- `d.get(k)` returning an `Option`. -/
def Doc.get (d : Doc) (k : String) : Option JVal :=
  match d.find? (fun kv => kv.1 == k) with
  | some kv => some kv.2
  | none => none

/-- `d.get(k, default)`. -/
def Doc.getD (d : Doc) (k : String) (dflt : JVal) : JVal :=
  (Doc.get d k).getD dflt

/-- Removal of a key (the destructive part of `d.pop(k)`). -/
def Doc.remove (d : Doc) (k : String) : Doc :=
  d.filter (fun kv => !(kv.1 == k))

/-- `d.pop(k)`: the value and the shrunken dict, `KeyError` if absent. -/
def Doc.pop (d : Doc) (k : String) : Except PyErr (JVal × Doc) :=
  match Doc.get d k with
  | some v => .ok (v, Doc.remove d k)
  | none => .error (.keyError k)

/-- `d.pop(k, default)`: never raises. -/
def Doc.popD (d : Doc) (k : String) (dflt : JVal) : JVal × Doc :=
  match Doc.get d k with
  | some v => (v, Doc.remove d k)
  | none => (dflt, d)

/-- Subscripting `d[k]`: `KeyError` if absent. -/
def Doc.index (d : Doc) (k : String) : Except PyErr JVal :=
  match Doc.get d k with
  | some v => .ok v
  | none => .error (.keyError k)

/-- Item assignment `d[k] = v`: replaces in place or appends. -/
def Doc.set (d : Doc) (k : String) (v : JVal) : Doc :=
  if (Doc.get d k).isSome then
    d.map (fun kv => if kv.1 == k then (k, v) else kv)
  else d ++ [(k, v)]

/-- The matching behaviour of a compiled pattern object. -/
abbrev Matcher := String → Bool

/-- The channel-permission bits the converter consults
(`Permissions.manage_roles` etc.). -/
structure Perms where
  manage_roles : Bool
  manage_messages : Bool
  ban_members : Bool
  kick_members : Bool
  add_reactions : Bool
  deriving Repr, DecidableEq

/-- A guild role: its id and its rank in the role hierarchy.  Discord
compares roles by hierarchy position; `role < other` is rank-strictly-
below. -/
structure Role where
  id : Nat
  rank : Nat
  deriving Repr, DecidableEq

/-- `role < other` on discord roles (strictly lower in the hierarchy). -/
def Role.lt (a b : Role) : Bool :=
  decide (a.rank < b.rank)

/-- The slice of the invocation context (`ctx`) read by the converters.
`my_perms` is `ctx.channel.permissions_for(ctx.me)` — the BOT's effective
channel permissions.  `actor_perms` is the invoking actor's effective
channel permission set (`ctx.channel.permissions_for(ctx.author)`); it is
part of the context but `MultiResponse.convert` never reads it.
`resolve_role` stands for `RoleConverter().convert` (`none` =
`BadArgument`), `resolve_emoji` for `ValidEmoji().convert`, and
`mock_confirm` for the outcome of the yes/no reaction prompt
(`some b` = the author reacted with answer `b` in time, `none` = no
reaction arrived within the timeout). -/
structure Ctx where
  my_perms : Perms
  actor_perms : Perms
  author_id : Nat
  owner_id : Nat
  author_top_role : Role
  me_top_role : Role
  resolve_role : String → Option Role
  resolve_emoji : String → Option String
  mock_confirm : Option Bool

/-- The fixed action-kind enumeration (`valid_reactions`, converters.py
lines 32–47). -/
def valid_reactions : List String :=
  ["dm", "dmme", "remove_role", "add_role", "ban", "kick", "text",
   "filter", "delete", "publish", "react", "rename", "command", "mock"]

/-- `re.split(r"(;)", argument)` splits on `;` and, because the separator
is a capture group, keeps each `;` as its own element.  `splitSemiAux`
computes the plain fields. -/
def splitSemiAux : List Char → List (List Char)
  | [] => [[]]
  | c :: cs =>
    let r := splitSemiAux cs
    if c = ';' then [] :: r
    else
      match r with
      | [] => [[c]]
      | f :: fs => (c :: f) :: fs

/-- The `;`-separated fields of a string (`argument.split(";")`). -/
def splitSemi (s : String) : List String :=
  (splitSemiAux s.data).map (fun cs => String.mk cs)

/-- `re.split(r"(;)", argument)`: the fields with the `;` separators kept
in between (converters.py line 31). -/
def re_split_keep (s : String) : List String :=
  List.intersperse ";" (splitSemi s)

/-- The errors `MultiResponse.convert` can raise, one constructor per
`raise BadArgument` site (several sites share the rendered message). -/
inductive ConvError where
  | notValidReactionType (s : String)
  | invalidMultiPattern
  | needManageRoles
  | needManageMessagesFilter
  | needManageMessagesPublish
  | needBanMembers
  | needKickMembers
  | needAddReactions
  | notCreatingTrigger
  deriving Repr, DecidableEq

/-- An element of the returned multi-response payload: Python mixes role
ids (int) and strings in the same list. -/
inductive RVal where
  | str (s : String)
  | int (n : Nat)
  deriving Repr, DecidableEq

/-- The nested helper `author_perms(ctx, role)` (converters.py lines
91–96): the guild owner may use any role, anyone else only roles strictly
below their own top role. -/
def author_perms (ctx : Ctx) (role : Role) : Bool :=
  if ctx.author_id == ctx.owner_id then true
  else Role.lt role ctx.author_top_role

/-- The body of `MultiResponse.convert` from the `result[0] == "filter"`
rewrite onward (converters.py lines 59–120), applied to the already
accumulated `result` list of fields. -/
def convertRest (ctx : Ctx) (result0 : List String) :
    Except ConvError (List RVal) :=
  let result : List String :=
    match result0 with
    | [] => []
    | x :: rest => (if x == "filter" then "delete" else x) :: rest
  let r0 := result.headD ""
  if decide (result.length < 2) && !(["delete", "ban", "kick"].contains r0) then
    .error .invalidMultiPattern
  else if (r0 == "add_role" || r0 == "remove_role") && !ctx.my_perms.manage_roles then
    .error .needManageRoles
  else if r0 == "filter" && !ctx.my_perms.manage_messages then
    .error .needManageMessagesFilter
  else if r0 == "publish" && !ctx.my_perms.manage_messages then
    .error .needManageMessagesPublish
  else if r0 == "ban" && !ctx.my_perms.ban_members then
    .error .needBanMembers
  else if r0 == "kick" && !ctx.my_perms.kick_members then
    .error .needKickMembers
  else if r0 == "react" && !ctx.my_perms.add_reactions then
    .error .needAddReactions
  else if r0 == "mock" && !(ctx.mock_confirm == some true) then
    .error .notCreatingTrigger
  else if r0 == "add_role" || r0 == "remove_role" then
    let good_roles := (result.drop 1).filterMap (fun r =>
      match ctx.resolve_role r with
      | some role =>
        if Role.lt role ctx.me_top_role && author_perms ctx role then
          some role.id
        else none
      | none => none)
    .ok (RVal.str r0 :: good_roles.map RVal.int)
  else if r0 == "react" then
    .ok (RVal.str r0 :: ((result.drop 1).filterMap ctx.resolve_emoji).map RVal.str)
  else
    .ok (result.map RVal.str)

/-- `MultiResponse.convert` (converters.py lines 29–120): split the
descriptor keeping the `;` separators, reject an unknown first field,
drop the separator elements, then hand over to `convertRest`. -/
def MultiResponse.convert (ctx : Ctx) (argument : String) :
    Except ConvError (List RVal) :=
  let parts := re_split_keep argument
  let m0 := parts.headD ""
  if !(valid_reactions.contains m0) then
    .error (.notValidReactionType m0)
  else
    convertRest ctx (parts.filter (fun m => !(m == ";")))

/-- The `timeout=15` argument of the `wait_for("reaction_add", ...)` call
guarding `mock` descriptors (converters.py line 85): seconds granted for
the yes/no confirmation. -/
def mock_confirm_timeout : Nat := 15

/-- The `Trigger` entity (converters.py lines 123–197).  `regex` is the
compiled pattern object's matching behaviour, `pattern` its stored
pattern text (`self.regex.pattern`); every keyword-bag field keeps the
dynamic type it has in Python. -/
structure Trigger where
  name : JVal
  regex : Matcher
  pattern : String
  response_type : JVal
  author : JVal
  enabled : JVal
  count : JVal
  image : JVal
  text : JVal
  whitelist : JVal
  blacklist : JVal
  cooldown : JVal
  multi_payload : JVal
  created_at : JVal
  ignore_commands : JVal
  check_edits : JVal
  ocr_search : JVal
  delete_after : JVal
  read_filenames : JVal
  chance : JVal
  reply : JVal
  tts : JVal
  user_mention : JVal
  role_mention : JVal
  everyone_mention : JVal
  nsfw : JVal

/-- `Trigger.__init__` (converters.py lines 169–197): compile the pattern
(re-raising the compilation failure), then fill every field from the
keyword bag with the source's defaults. -/
def Trigger.init (compile : String → Option Matcher) (name : JVal)
    (regex : String) (response_type : JVal) (author : JVal) (kwargs : Doc) :
    Except PyErr Trigger :=
  match compile regex with
  | none => .error (.regexError regex)
  | some m =>
    .ok {
      name := name
      regex := m
      pattern := regex
      response_type := response_type
      author := author
      enabled := Doc.getD kwargs "enabled" (.jbool true)
      count := Doc.getD kwargs "count" (.jint 0)
      image := Doc.getD kwargs "image" .jnull
      text := Doc.getD kwargs "text" .jnull
      whitelist := Doc.getD kwargs "whitelist" (.jlist [])
      blacklist := Doc.getD kwargs "blacklist" (.jlist [])
      cooldown := Doc.getD kwargs "cooldown" (.jdict [])
      multi_payload := Doc.getD kwargs "multi_payload" (.jlist [])
      created_at := Doc.getD kwargs "created_at" (.jint 0)
      ignore_commands := Doc.getD kwargs "ignore_commands" (.jbool false)
      check_edits := Doc.getD kwargs "check_edits" (.jbool false)
      ocr_search := Doc.getD kwargs "ocr_search" (.jbool false)
      delete_after := Doc.getD kwargs "delete_after" .jnull
      read_filenames := Doc.getD kwargs "read_filenames" (.jbool false)
      chance := Doc.getD kwargs "chance" (.jint 0)
      reply := Doc.getD kwargs "reply" .jnull
      tts := Doc.getD kwargs "tts" (.jbool false)
      user_mention := Doc.getD kwargs "user_mention" (.jbool true)
      role_mention := Doc.getD kwargs "role_mention" (.jbool false)
      everyone_mention := Doc.getD kwargs "everyone_mention" (.jbool false)
      nsfw := Doc.getD kwargs "nsfw" (.jbool false)
    }

/-- `Trigger.to_json` (converters.py lines 247–274), key order as in the
source; `"regex"` stores `self.regex.pattern`. -/
def Trigger.to_json (t : Trigger) : Doc :=
  [("name", t.name),
   ("regex", .jstr t.pattern),
   ("response_type", t.response_type),
   ("author", t.author),
   ("enabled", t.enabled),
   ("count", t.count),
   ("image", t.image),
   ("text", t.text),
   ("whitelist", t.whitelist),
   ("blacklist", t.blacklist),
   ("cooldown", t.cooldown),
   ("multi_payload", t.multi_payload),
   ("created_at", t.created_at),
   ("ignore_commands", t.ignore_commands),
   ("check_edits", t.check_edits),
   ("ocr_search", t.ocr_search),
   ("delete_after", t.delete_after),
   ("read_filenames", t.read_filenames),
   ("chance", t.chance),
   ("reply", t.reply),
   ("tts", t.tts),
   ("user_mention", t.user_mention),
   ("everyone_mention", t.everyone_mention),
   ("role_mention", t.role_mention),
   ("nsfw", t.nsfw)]

/-- `Trigger.from_json` (converters.py lines 276–294), line by line:
pop `name`/`regex`/`author`, pop `response_type` with default `[]`, the
bare-string normalization branch reads `data["response_type"]` (the key
just popped), the `delete`+bool-`text` branch moves `text` into
`read_filenames`, the `check_edits` backfill derives from `ignore_edits`,
and finally `cls(name, regex, response_type, author, **data)`. -/
def Trigger.from_json (compile : String → Option Matcher) (data0 : Doc) :
    Except PyErr Trigger := do
  let (name, data1) ← Doc.pop data0 "name"
  let (regex, data2) ← Doc.pop data1 "regex"
  let (author, data3) ← Doc.pop data2 "author"
  let (rt0, data4) := Doc.popD data3 "response_type" (.jlist [])
  let response_type ←
    if jval_isStr rt0 then do
      let v ← Doc.index data4 "response_type"
      pure (JVal.jlist [v])
    else pure rt0
  let hasDelete ← py_str_in "delete" response_type
  let data5 ←
    if hasDelete then do
      let t ← Doc.index data4 "text"
      if jval_isBool t then
        pure (Doc.set (Doc.set data4 "read_filenames" t) "text" JVal.jnull)
      else pure data4
    else pure data4
  let ignore_edits := Doc.getD data5 "ignore_edits" (JVal.jbool false)
  let check_edits := Doc.getD data5 "check_edits" JVal.jnull
  let data6 ←
    if jval_isNull check_edits then do
      let elems ← jval_iter response_type
      if elems.any (fun t => py_in_str_list t ["ban", "kick", "delete"]) then
        pure (Doc.set data5 "check_edits" (JVal.jbool (!(JVal.truthy ignore_edits))))
      else pure data5
    else pure data5
  match regex with
  | JVal.jstr r => Trigger.init compile name r response_type author data6
  | _ => .error (.typeError "first argument must be string or compiled pattern")

/-- The message of the `BadArgument` raised by `ValidRegex.convert`. -/
def validRegexErrMsg (arg : String) : String :=
  arg ++ " is not a valid regex pattern."

/-- `ValidRegex.convert` (converters.py lines 320–328): try to compile,
return the pattern text unchanged on success, `BadArgument` on failure. -/
def ValidRegex.convert (compile : String → Option Matcher)
    (argument : String) : Except PyErr String :=
  match compile argument with
  | some _ => .ok argument
  | none => .error (.badArgument (validRegexErrMsg argument))

/-! Concrete instances of the external collaborators, used by the
counterexample and witness theorems. -/

/-- All permission bits granted. -/
def allPerms : Perms :=
  { manage_roles := true, manage_messages := true, ban_members := true,
    kick_members := true, add_reactions := true }

/-- No permission bits granted. -/
def noPerms : Perms :=
  { manage_roles := false, manage_messages := false, ban_members := false,
    kick_members := false, add_reactions := false }

/-- A guild role named `Moderator` in the test context. -/
def modRole : Role := { id := 42, rank := 3 }

/-- A baseline test context: non-owner actor, every permission granted,
one resolvable role (`Moderator`), no resolvable emojis, confirmation
answered yes. -/
def ctxStd : Ctx :=
  { my_perms := allPerms
    actor_perms := allPerms
    author_id := 2
    owner_id := 1
    author_top_role := { id := 100, rank := 10 }
    me_top_role := { id := 101, rank := 10 }
    resolve_role := fun s => if s == "Moderator" then some modRole else none
    resolve_emoji := fun _ => none
    mock_confirm := some true }

/-- Test context: the actor holds every permission but the bot lacks
Manage Roles. -/
def ctxBotNoRoles : Ctx :=
  { ctxStd with my_perms := { allPerms with manage_roles := false } }

/-- Test context in which no role reference resolves. -/
def ctxNoResolve : Ctx :=
  { ctxStd with resolve_role := fun _ => none }

/-- Test context: the actor IS the guild owner, the actor's top role has
rank 0, and `High` resolves to a role of rank 3 (above the actor's top
role but below the bot's). -/
def ctxOwner : Ctx :=
  { my_perms := allPerms
    actor_perms := allPerms
    author_id := 1
    owner_id := 1
    author_top_role := { id := 7, rank := 0 }
    me_top_role := { id := 101, rank := 10 }
    resolve_role := fun s => if s == "High" then some { id := 5, rank := 3 } else none
    resolve_emoji := fun _ => none
    mock_confirm := none }

/-- Test context in which the bot holds no permissions at all. -/
def ctxNoPerms : Ctx :=
  { ctxStd with my_perms := noPerms }

/-- Test context: the confirmation prompt was answered no. -/
def ctxMockNo : Ctx :=
  { ctxStd with mock_confirm := some false }

/-- Test context: the confirmation prompt timed out unanswered. -/
def ctxMockTimeout : Ctx :=
  { ctxStd with mock_confirm := none }

/-- A compile function for which every pattern compiles (matcher accepts
everything). -/
def compileAlways : String → Option Matcher :=
  fun _ => some (fun _ => true)

/-- A compile function modelling a library on which the single pattern
`[` fails to compile and every other pattern matches exactly its own
text. -/
def compileLit : String → Option Matcher :=
  fun p => if p == "[" then none else some (fun t => t == p)

/-- The legacy persisted document exercising the bare-string
`response_type` shape (`response_type` stored as `"text"` instead of
`["text"]`). -/
def legacyStrDoc : Doc :=
  [("name", .jstr "legacy"),
   ("regex", .jstr "abc"),
   ("author", .jint 1),
   ("response_type", .jstr "text")]

/-! Structural lemmas about the splitter, letting theorems about
`MultiResponse.convert` be proved from the list of `;`-separated fields
of the descriptor. -/

/-- The splitter always produces at least one field. -/
theorem splitSemiAux_ne_nil (cs : List Char) : splitSemiAux cs ≠ [] := by
  induction cs with
  | nil => simp [splitSemiAux]
  | cons c cs ih =>
    simp only [splitSemiAux]
    split
    · simp
    · split
      · simp
      · simp

/-- No produced field contains the separator character. -/
theorem semi_not_mem_splitSemiAux (cs : List Char) :
    ∀ f ∈ splitSemiAux cs, ';' ∉ f := by
  induction cs with
  | nil =>
    intro f hf
    simp [splitSemiAux] at hf
    simp [hf]
  | cons c cs ih =>
    intro f hf
    simp only [splitSemiAux] at hf
    by_cases hc : c = ';'
    · rw [if_pos hc] at hf
      rcases List.mem_cons.mp hf with h | h
      · simp [h]
      · exact ih f h
    · rw [if_neg hc] at hf
      rcases hr : splitSemiAux cs with _ | ⟨g, gs⟩
      · exact absurd hr (splitSemiAux_ne_nil cs)
      · rw [hr] at hf
        rcases List.mem_cons.mp hf with h | h
        · subst h
          intro hmem
          rcases List.mem_cons.mp hmem with h1 | h1
          · exact hc h1.symm
          · exact ih g (by rw [hr]; exact List.mem_cons_self g gs) h1
        · exact ih f (by rw [hr]; exact List.mem_cons_of_mem g h)

/-- No field of a split string equals the separator string `";"`. -/
theorem splitSemi_field_ne_semi (s : String) :
    ∀ f ∈ splitSemi s, (f == ";") = false := by
  intro f hf
  simp only [splitSemi, List.mem_map] at hf
  obtain ⟨cs, hcs, rfl⟩ := hf
  have h := semi_not_mem_splitSemiAux s.data cs hcs
  rw [beq_eq_false_iff_ne]
  intro he
  apply h
  have hcs' : cs = [';'] := by
    have := congrArg String.data he
    simpa using this
  simp [hcs']

/-- The head of the separator-keeping split is the first field. -/
theorem headD_intersperse (fs : List String) (d : String) :
    (List.intersperse ";" fs).headD d = fs.headD d := by
  cases fs with
  | nil => rfl
  | cons a t => cases t <;> rfl

/-- Dropping the kept separators recovers the fields. -/
theorem filter_ne_semi_intersperse (fs : List String)
    (h : ∀ f ∈ fs, (f == ";") = false) :
    (List.intersperse ";" fs).filter (fun m => !(m == ";")) = fs := by
  induction fs with
  | nil => rfl
  | cons a t ih =>
    have ha := h a (List.mem_cons_self a t)
    cases t with
    | nil => simp [List.intersperse, ha]
    | cons b t2 =>
      have ht : ∀ f ∈ b :: t2, (f == ";") = false :=
        fun f hf => h f (List.mem_cons_of_mem a hf)
      rw [List.intersperse_cons_cons, List.filter_cons_of_pos (by simp [ha]),
        List.filter_cons_of_neg (by simp)]
      rw [ih ht]

/-- `MultiResponse.convert` in terms of the plain field list of the
descriptor: validity gate on the first field, then `convertRest` on the
fields. -/
theorem convert_eq_fields (ctx : Ctx) (s : String) :
    MultiResponse.convert ctx s =
      if !(valid_reactions.contains ((splitSemi s).headD "")) then
        .error (.notValidReactionType ((splitSemi s).headD ""))
      else convertRest ctx (splitSemi s) := by
  simp only [MultiResponse.convert, re_split_keep]
  rw [headD_intersperse,
    filter_ne_semi_intersperse (splitSemi s) (splitSemi_field_ne_semi s)]

/-- A list with two or more elements fails the `len(result) < 2` test. -/
theorem len_cons_cons {α : Type} (a b : α) (l : List α) :
    decide ((a :: b :: l).length < 2) = false := by
  rw [decide_eq_false_iff_not]
  simp

/-- The first `;`-separated field of a descriptor (the action kind as
written, before any normalization). -/
def firstField (s : String) : String :=
  (splitSemi s).headD ""

/-- C7: a descriptor whose first field is the legacy alias `filter` has
its action kind rewritten to `delete` in the returned payload, and the
bare descriptor `"filter"` parses successfully into `["delete"]` (the
rewrite happens before the at-least-one-argument test, from which the
`delete` kind is exempt). -/
theorem filter_alias_rewritten_to_delete :
    (∀ ctx : Ctx, MultiResponse.convert ctx "filter" = .ok [.str "delete"]) ∧
    (∀ (ctx : Ctx) (s : String) (p : List RVal),
      firstField s = "filter" → MultiResponse.convert ctx s = .ok p →
      p.headD (.str "") = .str "delete") := by
  constructor
  · intro ctx
    rfl
  · intro ctx s p hff hconv
    rw [convert_eq_fields] at hconv
    rcases hsp : splitSemi s with _ | ⟨x, rest⟩
    · rw [firstField, hsp] at hff
      simp at hff
    · rw [firstField, hsp] at hff
      simp only [List.headD_cons] at hff
      subst hff
      rw [hsp] at hconv
      simp only [List.headD_cons] at hconv
      rw [if_neg (by decide)] at hconv
      simp [convertRest] at hconv
      rw [← hconv]
      rfl

/-- Closed witness for the hypothesis-bearing part of C7's theorem, at a
concrete context and descriptor. -/
theorem filter_alias_rewritten_to_delete_witness :
    ([RVal.str "delete", RVal.str "x"].headD (.str "")) = .str "delete" :=
  filter_alias_rewritten_to_delete.2 ctxStd "filter;x"
    [RVal.str "delete", RVal.str "x"] rfl rfl

/-- After the `filter` → `delete` rewrite, no field list can make
`convertRest` raise the Manage-Messages error of the
`result[0] == "filter"` guard. -/
theorem convertRest_no_filter_error (ctx : Ctx) (result0 : List String) :
    convertRest ctx result0 ≠ .error .needManageMessagesFilter := by
  intro h
  rcases result0 with _ | ⟨x, rest⟩
  · simp [convertRest] at h
  · by_cases hx : (x == "filter") = true
    · simp only [convertRest, List.headD_cons, hx, if_true] at h
      simp at h
    · rw [Bool.not_eq_true] at hx
      simp only [convertRest, List.headD_cons, hx, Bool.false_and,
        Bool.false_eq_true, if_false] at h
      split at h
      · simp at h
      split at h
      · simp at h
      split at h
      · simp at h
      split at h
      · simp at h
      split at h
      · simp at h
      split at h
      · simp at h
      split at h
      · simp at h
      split at h
      · simp at h
      split at h <;> simp at h

/-- C10: the Manage Messages failure branch guarded by
`result[0] == "filter"` is unreachable — its error is never produced for
any context and descriptor — because the `filter` → `delete` rewrite
precedes the guard; consequently a descriptor written with the `filter`
alias parses successfully whatever the bot's permissions. -/
theorem filter_perm_branch_unreachable :
    (∀ (ctx : Ctx) (s : String),
      MultiResponse.convert ctx s ≠ .error .needManageMessagesFilter) ∧
    (∀ (ctx : Ctx) (s : String) (rest : List String),
      splitSemi s = "filter" :: rest →
      (MultiResponse.convert ctx s).isOk = true) := by
  constructor
  · intro ctx s h
    rw [convert_eq_fields] at h
    split at h
    · simp at h
    · exact convertRest_no_filter_error ctx (splitSemi s) h
  · intro ctx s rest hsp
    rw [convert_eq_fields, hsp]
    simp only [List.headD_cons]
    rw [if_neg (by decide)]
    simp [convertRest, Except.isOk, Except.toBool]

/-- Closed witness for C10's theorem: even with every bot permission
revoked, a `filter` descriptor still parses. -/
theorem filter_perm_branch_unreachable_witness :
    (MultiResponse.convert ctxNoPerms "filter;x").isOk = true ∧
    MultiResponse.convert ctxNoPerms "filter;x" ≠
      .error .needManageMessagesFilter :=
  ⟨filter_perm_branch_unreachable.2 ctxNoPerms "filter;x" ["x"] rfl,
   filter_perm_branch_unreachable.1 ctxNoPerms "filter;x"⟩

/-- C8: a descriptor consisting of a bare valid action kind whose
post-normalization kind is not `delete`, `ban` or `kick` fails with the
malformed-pattern error, regardless of the context; bare `delete`
parses unconditionally, and bare `ban`/`kick` parse whenever the bot
holds the corresponding permission. -/
theorem no_arg_kinds_rejected :
    (∀ (ctx : Ctx) (k : String), k ∈ valid_reactions →
      ((["delete", "ban", "kick"] : List String).contains
        (if k == "filter" then "delete" else k)) = false →
      MultiResponse.convert ctx k = .error .invalidMultiPattern) ∧
    (∀ ctx : Ctx, MultiResponse.convert ctx "delete" = .ok [.str "delete"]) ∧
    (∀ ctx : Ctx, ctx.my_perms.ban_members = true →
      MultiResponse.convert ctx "ban" = .ok [.str "ban"]) ∧
    (∀ ctx : Ctx, ctx.my_perms.kick_members = true →
      MultiResponse.convert ctx "kick" = .ok [.str "kick"]) := by
  refine ⟨?_, ?_, ?_, ?_⟩
  · intro ctx k hk hex
    simp only [valid_reactions, List.mem_cons, List.not_mem_nil, or_false] at hk
    rcases hk with rfl | rfl | rfl | rfl | rfl | rfl | rfl | rfl | rfl | rfl |
      rfl | rfl | rfl | rfl <;>
      first
        | rfl
        | exact absurd hex (by decide)
  · intro ctx
    rfl
  · intro ctx h
    have hsp : splitSemi "ban" = ["ban"] := rfl
    rw [convert_eq_fields, hsp]
    simp only [List.headD_cons]
    rw [if_neg (by decide)]
    simp [convertRest, h]
  · intro ctx h
    have hsp : splitSemi "kick" = ["kick"] := rfl
    rw [convert_eq_fields, hsp]
    simp only [List.headD_cons]
    rw [if_neg (by decide)]
    simp [convertRest, h]

/-- Closed witness for C8's theorem at concrete inputs: a bare `dm`
descriptor is rejected as malformed while bare `ban` and `kick` are
accepted when the bot has the permissions. -/
theorem no_arg_kinds_rejected_witness :
    MultiResponse.convert ctxStd "dm" = .error .invalidMultiPattern ∧
    MultiResponse.convert ctxStd "ban" = .ok [.str "ban"] ∧
    MultiResponse.convert ctxStd "kick" = .ok [.str "kick"] :=
  ⟨no_arg_kinds_rejected.1 ctxStd "dm" (by decide) (by decide),
   no_arg_kinds_rejected.2.2.1 ctxStd rfl,
   no_arg_kinds_rejected.2.2.2 ctxStd rfl⟩

/-- C9: a `mock` descriptor is accepted only when the confirmation
prompt resolved to an explicit yes; with an argument present, a yes
yields the payload while a no answer or an unanswered (timed-out)
prompt yields the trigger-rejection error; the confirmation wait is
bounded by the fixed 15-second timeout constant of the source. -/
theorem mock_requires_confirmation :
    (∀ (ctx : Ctx) (s : String) (p : List RVal),
      MultiResponse.convert ctx s = .ok p → firstField s = "mock" →
      ctx.mock_confirm = some true) ∧
    (∀ (ctx : Ctx) (s : String) (x : String) (rest : List String),
      splitSemi s = "mock" :: x :: rest →
      MultiResponse.convert ctx s =
        match ctx.mock_confirm with
        | some true => .ok (RVal.str "mock" :: (x :: rest).map RVal.str)
        | _ => .error .notCreatingTrigger) ∧
    mock_confirm_timeout = 15 := by
  refine ⟨?_, ?_, rfl⟩
  · intro ctx s p hconv hff
    rw [convert_eq_fields] at hconv
    rcases hsp : splitSemi s with _ | ⟨y, rest⟩
    · rw [firstField, hsp] at hff
      simp at hff
    · rw [firstField, hsp] at hff
      simp only [List.headD_cons] at hff
      subst hff
      rw [hsp] at hconv
      simp only [List.headD_cons] at hconv
      rw [if_neg (by decide)] at hconv
      by_contra hne
      have hb : (ctx.mock_confirm == some true) = false :=
        beq_eq_false_iff_ne.mpr hne
      rcases rest with _ | ⟨a, rest2⟩
      · simp [convertRest] at hconv
      · simp [convertRest, hb] at hconv
        split at hconv <;> simp at hconv
  · intro ctx s x rest hsp
    rw [convert_eq_fields, hsp]
    simp only [List.headD_cons]
    rw [if_neg (by decide)]
    rcases hmc : ctx.mock_confirm with _ | b
    · simp [convertRest, hmc, len_cons_cons]
    · cases b
      · simp [convertRest, hmc, len_cons_cons]
      · simp [convertRest, hmc, len_cons_cons]

/-- Closed witness for C9's theorem: the accepted concrete parse had a
yes confirmation, and with a timed-out prompt the concrete parse follows
the rejection branch. -/
theorem mock_requires_confirmation_witness :
    ctxStd.mock_confirm = some true ∧
    MultiResponse.convert ctxMockTimeout "mock;hi" =
      (match ctxMockTimeout.mock_confirm with
       | some true => .ok (RVal.str "mock" :: (["hi"] : List String).map RVal.str)
       | _ => .error .notCreatingTrigger) :=
  ⟨mock_requires_confirmation.1 ctxStd "mock;hi" [.str "mock", .str "hi"] rfl rfl,
   mock_requires_confirmation.2.1 ctxMockTimeout "mock;hi" "hi" [] rfl⟩

/-- Test context: the invoking actor holds no permissions at all while
the bot holds every permission. -/
def ctxActorNoPerms : Ctx :=
  { ctxStd with actor_perms := noPerms }

/-- C1 counterexample: at a concrete input the claim fails in both
directions — the actor holds the Manage Roles capability yet the
`add_role` parse is rejected on permission grounds (because the BOT
lacks it), and the actor lacks every capability yet the `add_role`
parse goes through (because the bot holds them). -/
theorem perm_check_not_on_actor_counterexample :
    ctxBotNoRoles.actor_perms.manage_roles = true ∧
    MultiResponse.convert ctxBotNoRoles "add_role;Moderator" =
      .error .needManageRoles ∧
    ctxActorNoPerms.actor_perms.manage_roles = false ∧
    MultiResponse.convert ctxActorNoPerms "add_role;Moderator" =
      .ok [.str "add_role", .int 42] :=
  ⟨rfl, rfl, rfl, rfl⟩

/-- C1 amended: the capability precondition check is performed against
the BOT's effective channel permissions (`ctx.me`) — the invoking
actor's permission set is never consulted (the parse result is invariant
under changing it) — and for each checked kind the parse fails with the
corresponding permission error exactly when the bot lacks the
capability: Manage Roles for `add_role`/`remove_role`, Manage Messages
for `publish`, Ban Members for `ban`, Kick Members for `kick`, Add
Reactions for `react`.  (No Manage Messages check ever applies to the
`filter` alias, whose guard is dead code — see the C10 theorem.) -/
theorem perm_check_is_against_bot :
    (∀ (ctx : Ctx) (p : Perms) (s : String),
      MultiResponse.convert { ctx with actor_perms := p } s =
        MultiResponse.convert ctx s) ∧
    (∀ (ctx : Ctx) (s : String) (x : String) (rest : List String),
      splitSemi s = "add_role" :: x :: rest →
      (MultiResponse.convert ctx s = .error .needManageRoles ↔
        ctx.my_perms.manage_roles = false)) ∧
    (∀ (ctx : Ctx) (s : String) (x : String) (rest : List String),
      splitSemi s = "remove_role" :: x :: rest →
      (MultiResponse.convert ctx s = .error .needManageRoles ↔
        ctx.my_perms.manage_roles = false)) ∧
    (∀ (ctx : Ctx) (s : String) (x : String) (rest : List String),
      splitSemi s = "publish" :: x :: rest →
      (MultiResponse.convert ctx s = .error .needManageMessagesPublish ↔
        ctx.my_perms.manage_messages = false)) ∧
    (∀ (ctx : Ctx) (s : String) (rest : List String),
      splitSemi s = "ban" :: rest →
      (MultiResponse.convert ctx s = .error .needBanMembers ↔
        ctx.my_perms.ban_members = false)) ∧
    (∀ (ctx : Ctx) (s : String) (rest : List String),
      splitSemi s = "kick" :: rest →
      (MultiResponse.convert ctx s = .error .needKickMembers ↔
        ctx.my_perms.kick_members = false)) ∧
    (∀ (ctx : Ctx) (s : String) (x : String) (rest : List String),
      splitSemi s = "react" :: x :: rest →
      (MultiResponse.convert ctx s = .error .needAddReactions ↔
        ctx.my_perms.add_reactions = false)) := by
  refine ⟨?_, ?_, ?_, ?_, ?_, ?_, ?_⟩
  · intro ctx p s
    cases ctx
    rfl
  · intro ctx s x rest hsp
    rw [convert_eq_fields, hsp]
    simp only [List.headD_cons]
    rw [if_neg (by decide)]
    cases hmr : ctx.my_perms.manage_roles
    · simp [convertRest, hmr, len_cons_cons]
    · simp only [convertRest, List.headD_cons]
      simp [hmr]
      intro h
      split at h <;> simp at h
  · intro ctx s x rest hsp
    rw [convert_eq_fields, hsp]
    simp only [List.headD_cons]
    rw [if_neg (by decide)]
    cases hmr : ctx.my_perms.manage_roles
    · simp [convertRest, hmr, len_cons_cons]
    · simp only [convertRest, List.headD_cons]
      simp [hmr]
      intro h
      split at h <;> simp at h
  · intro ctx s x rest hsp
    rw [convert_eq_fields, hsp]
    simp only [List.headD_cons]
    rw [if_neg (by decide)]
    cases hmm : ctx.my_perms.manage_messages
    · simp [convertRest, hmm, len_cons_cons]
    · simp [hmm, convertRest]
      intro h
      split at h <;> simp at h
  · intro ctx s rest hsp
    rw [convert_eq_fields, hsp]
    simp only [List.headD_cons]
    rw [if_neg (by decide)]
    cases hbb : ctx.my_perms.ban_members
    · simp [convertRest, hbb]
    · simp [convertRest, hbb]
  · intro ctx s rest hsp
    rw [convert_eq_fields, hsp]
    simp only [List.headD_cons]
    rw [if_neg (by decide)]
    cases hkk : ctx.my_perms.kick_members
    · simp [convertRest, hkk]
    · simp [convertRest, hkk]
  · intro ctx s x rest hsp
    rw [convert_eq_fields, hsp]
    simp only [List.headD_cons]
    rw [if_neg (by decide)]
    cases har : ctx.my_perms.add_reactions
    · simp [convertRest, har, len_cons_cons]
    · simp [har, convertRest]
      intro h
      split at h <;> simp at h

/-- Closed witness for C1's amended theorem at concrete inputs. -/
theorem perm_check_is_against_bot_witness :
    (MultiResponse.convert ctxBotNoRoles "add_role;Moderator" =
      .error .needManageRoles ↔
      ctxBotNoRoles.my_perms.manage_roles = false) ∧
    (MultiResponse.convert ctxNoPerms "ban" = .error .needBanMembers ↔
      ctxNoPerms.my_perms.ban_members = false) :=
  ⟨perm_check_is_against_bot.2.1 ctxBotNoRoles "add_role;Moderator"
      "Moderator" [] rfl,
   perm_check_is_against_bot.2.2.2.2.1 ctxNoPerms "ban" [] rfl⟩

/-- C3 counterexample: in a context where no role reference resolves,
the descriptor `"add_role;Nonexistent"` does NOT fail with the
malformed-pattern (`MalformedActionArgs`) error — it parses successfully
into the zero-role payload `["add_role"]`, because the argument-count
check runs before role resolution. -/
theorem add_role_zero_roles_counterexample :
    MultiResponse.convert ctxNoResolve "add_role;Nonexistent" =
      .ok [.str "add_role"] ∧
    MultiResponse.convert ctxNoResolve "add_role;Nonexistent" ≠
      .error .invalidMultiPattern := by
  refine ⟨rfl, ?_⟩
  intro h
  rw [show MultiResponse.convert ctxNoResolve "add_role;Nonexistent" =
    Except.ok [RVal.str "add_role"] from rfl] at h
  exact Except.noConfusion h

/-- C3 amended: an `add_role` descriptor with one resolvable, assignable
role and one unresolvable reference parses into the degraded payload
holding only the valid role id; and an `add_role` descriptor whose every
role argument fails to resolve still parses successfully, yielding the
payload `["add_role"]` with zero role ids, rather than failing with the
malformed-pattern error. -/
theorem add_role_degrades_and_never_fails_on_resolution :
    ∀ (ctx : Ctx) (role : Role),
      ctx.my_perms.manage_roles = true →
      ctx.resolve_role "Moderator" = some role →
      Role.lt role ctx.me_top_role = true →
      author_perms ctx role = true →
      ctx.resolve_role "Nonexistent" = none →
      MultiResponse.convert ctx "add_role;Moderator;Nonexistent" =
        .ok [.str "add_role", .int role.id] ∧
      MultiResponse.convert ctx "add_role;Nonexistent" =
        .ok [.str "add_role"] := by
  intro ctx role hmr hres hlt hap hnores
  constructor
  · have hsp : splitSemi "add_role;Moderator;Nonexistent" =
        ["add_role", "Moderator", "Nonexistent"] := rfl
    rw [convert_eq_fields, hsp]
    simp only [List.headD_cons]
    rw [if_neg (by decide)]
    simp [convertRest, hmr, hres, hlt, hap, hnores]
  · have hsp : splitSemi "add_role;Nonexistent" =
        ["add_role", "Nonexistent"] := rfl
    rw [convert_eq_fields, hsp]
    simp only [List.headD_cons]
    rw [if_neg (by decide)]
    simp [convertRest, hmr, hnores]

/-- Closed witness for C3's amended theorem at the baseline context. -/
theorem add_role_degrades_witness :
    MultiResponse.convert ctxStd "add_role;Moderator;Nonexistent" =
      .ok [.str "add_role", .int modRole.id] ∧
    MultiResponse.convert ctxStd "add_role;Nonexistent" =
      .ok [.str "add_role"] :=
  add_role_degrades_and_never_fails_on_resolution ctxStd modRole
    rfl rfl rfl rfl rfl

/-- C4 counterexample: when the invoking actor is the guild owner, an
accepted payload may contain a role whose rank is NOT strictly below the
actor's own highest role — here the owner's top role has rank 0 while
the accepted role `High` has rank 3 (strictly below only the bot's top
role). -/
theorem role_rank_owner_escalation_counterexample :
    MultiResponse.convert ctxOwner "add_role;High" =
      .ok [.str "add_role", .int 5] ∧
    ctxOwner.resolve_role "High" = some { id := 5, rank := 3 } ∧
    ctxOwner.author_top_role.rank = 0 ∧
    ¬(3 < 0) :=
  ⟨rfl, rfl, rfl, by decide⟩

set_option maxHeartbeats 1600000 in
/-- C4 amended: every role id appearing in an accepted payload comes
from a resolved role whose rank is strictly below the bot's highest
role, and which additionally is strictly below the invoking actor's
highest role UNLESS the actor is the guild owner (the owner bypasses the
actor-rank comparison). -/
theorem role_payload_rank_bounds :
    ∀ (ctx : Ctx) (s : String) (p : List RVal) (n : Nat),
      MultiResponse.convert ctx s = .ok p →
      RVal.int n ∈ p →
      ∃ arg role, ctx.resolve_role arg = some role ∧ role.id = n ∧
        Role.lt role ctx.me_top_role = true ∧
        (ctx.author_id = ctx.owner_id ∨
          Role.lt role ctx.author_top_role = true) := by
  intro ctx s p n hconv hmem
  rw [convert_eq_fields] at hconv
  split at hconv
  · simp at hconv
  rcases hsp : splitSemi s with _ | ⟨x, rest⟩
  · rw [hsp] at hconv
    simp [convertRest] at hconv
  rw [hsp] at hconv
  simp only [convertRest, List.headD_cons, List.drop_succ_cons,
    List.drop_zero] at hconv
  generalize hy : (if x == "filter" then "delete" else x) = y at hconv
  split at hconv
  · simp at hconv
  split at hconv
  · simp at hconv
  split at hconv
  · simp at hconv
  split at hconv
  · simp at hconv
  split at hconv
  · simp at hconv
  split at hconv
  · simp at hconv
  split at hconv
  · simp at hconv
  split at hconv
  · simp at hconv
  split at hconv
  · simp only [Except.ok.injEq] at hconv
    subst hconv
    rcases List.mem_cons.mp hmem with h | h
    · simp at h
    · rw [List.mem_map] at h
      obtain ⟨m, hm, hmn⟩ := h
      have hns : m = n := by injection hmn
      subst hns
      rw [List.mem_filterMap] at hm
      obtain ⟨r, hr, hfr⟩ := hm
      rcases hres : ctx.resolve_role r with _ | role
      · rw [hres] at hfr
        simp at hfr
      · rw [hres] at hfr
        simp only at hfr
        split at hfr
        · rename_i hcond
          have hid : role.id = m := by
            injection hfr
          rw [Bool.and_eq_true] at hcond
          obtain ⟨hlt, hauth⟩ := hcond
          refine ⟨r, role, hres, hid, hlt, ?_⟩
          by_cases ho : (ctx.author_id == ctx.owner_id) = true
          · exact Or.inl (beq_iff_eq.mp ho)
          · rw [author_perms, if_neg ho] at hauth
            exact Or.inr hauth
        · simp at hfr
  split at hconv
  · simp only [Except.ok.injEq] at hconv
    subst hconv
    simp at hmem
  · simp only [Except.ok.injEq] at hconv
    subst hconv
    simp at hmem

/-- Closed witness for C4's amended theorem: the concrete accepted
payload element 42 traces back to a resolved role satisfying the rank
conditions. -/
theorem role_payload_rank_bounds_witness :
    ∃ arg role, ctxStd.resolve_role arg = some role ∧ role.id = 42 ∧
      Role.lt role ctxStd.me_top_role = true ∧
      (ctxStd.author_id = ctxStd.owner_id ∨
        Role.lt role ctxStd.author_top_role = true) :=
  role_payload_rank_bounds ctxStd "add_role;Moderator"
    [.str "add_role", .int 42] 42 rfl (by decide)

/-- C6 counterexample: a Trigger constructed with `chance=150` stores
the value 150 unchanged — outside `[0,100]` — so no clamping occurs. -/
theorem chance_not_clamped_counterexample :
    (Trigger.init compileAlways (.jstr "n") "abc" (.jlist []) (.jint 1)
      [("chance", .jint 150)]).map Trigger.chance = .ok (.jint 150) ∧
    ¬((150 : Int) ≤ 100) :=
  ⟨rfl, by decide⟩

/-- C6 amended: for every successfully constructed Trigger the stored
`chance` field is exactly the supplied keyword value (default 0 when
absent) — stored as-is, with no clamping into any range. -/
theorem chance_stored_unclamped :
    ∀ (compile : String → Option Matcher) (nm : JVal) (regex : String)
      (rt au : JVal) (kwargs : Doc),
      (Trigger.init compile nm regex rt au kwargs).map Trigger.chance =
        match compile regex with
        | some _ => .ok (Doc.getD kwargs "chance" (.jint 0))
        | none => .error (.regexError regex) := by
  intro compile nm regex rt au kwargs
  rcases h : compile regex with _ | m
  · simp [Trigger.init, h, Except.map]
  · simp [Trigger.init, h, Except.map]

/-- C5: pattern compilation gates Trigger creation — for any behaviour
of the external regex library, if the pattern compiles then
`ValidRegex.convert` accepts it unchanged and `Trigger.__init__`
produces a Trigger holding exactly the compiled matcher (hence matching
precisely the texts the compiled pattern matches); if compilation fails
then both raise and no Trigger value exists. -/
theorem pattern_compile_gate :
    ∀ (compile : String → Option Matcher) (nm rt au : JVal) (kw : Doc)
      (P : String),
      (∀ m : Matcher, compile P = some m →
        ValidRegex.convert compile P = .ok P ∧
        ∃ t, Trigger.init compile nm P rt au kw = .ok t ∧
          t.regex = m ∧ t.pattern = P ∧ ∀ T, t.regex T = m T) ∧
      (compile P = none →
        Trigger.init compile nm P rt au kw = .error (.regexError P) ∧
        ValidRegex.convert compile P =
          .error (.badArgument (validRegexErrMsg P))) := by
  intro compile nm rt au kw P
  constructor
  · intro m hm
    constructor
    · simp [ValidRegex.convert, hm]
    · simp only [Trigger.init, hm]
      exact ⟨_, rfl, rfl, rfl, fun T => rfl⟩
  · intro hm
    constructor
    · simp [Trigger.init, hm]
    · simp [ValidRegex.convert, hm]

/-- Closed witness for C5's theorem on a concrete library behaviour:
`spam` compiles (to a matcher accepting exactly `"spam"`) and gets
through both converters, while `[` fails to compile and is rejected by
both. -/
theorem pattern_compile_gate_witness :
    (ValidRegex.convert compileLit "spam" = .ok "spam" ∧
      ∃ t, Trigger.init compileLit (.jstr "n") "spam" (.jlist [])
          (.jint 1) [] = .ok t ∧
        t.regex = (fun u => u == "spam") ∧ t.pattern = "spam" ∧
        ∀ T, t.regex T = (fun u => u == "spam") T) ∧
    (Trigger.init compileLit (.jstr "n") "[" (.jlist []) (.jint 1) [] =
        .error (.regexError "[") ∧
      ValidRegex.convert compileLit "[" =
        .error (.badArgument (validRegexErrMsg "["))) :=
  ⟨(pattern_compile_gate compileLit (.jstr "n") (.jlist [])
      (.jint 1) [] "spam").1 (fun u => u == "spam") rfl,
   (pattern_compile_gate compileLit (.jstr "n") (.jlist [])
      (.jint 1) [] "[").2 rfl⟩

/-- C2: evaluating `Trigger.from_json` at a legacy document whose
`response_type` is stored as a bare string.  The document does carry the
key, yet deserialization raises `KeyError("response_type")` instead of
normalizing to a single-element list: the normalization branch reads
`data["response_type"]` after `data.pop("response_type", [])` has
already removed the key. -/
theorem from_json_bare_string_keyerror :
    Doc.get legacyStrDoc "response_type" = some (.jstr "text") ∧
    Trigger.from_json compileAlways legacyStrDoc =
      .error (.keyError "response_type") :=
  ⟨rfl, rfl⟩
